import Mathlib

/-!
# Visionboard — verification of the canvas-engine and backend specification

Shallow embedding of the Visionboard repository (src/js/app.js and
src/backend/server.js).  JavaScript numbers are modelled as rationals (ℚ),
so every arithmetic statement is exact; JS `Map`s are association lists;
fallible request handlers return `Except`.  Each definition is translated
from the corresponding source function, keeping its name and structure.
-/

namespace Visionboard

/-- Viewport state of the client app: `viewport_x`, `viewport_y`, `zoom`
(fields of `VisionboardApp`, src/js/app.js). -/
structure Viewport where
  x : ℚ
  y : ℚ
  zoom : ℚ
deriving Repr, DecidableEq

/-- `this.canvasSize = 5000` (app.js constructor). -/
def canvasSize : ℚ := 5000

/-- `this.minZoom = 0.25`. -/
def minZoom : ℚ := 1/4

/-- `this.maxZoom = 2`. -/
def maxZoom : ℚ := 2

/-- `clampViewport()` (app.js lines 677-684): clamps the origin to
`[0, canvasSize - viewportExtent/zoom]` on each axis, where `w`, `h` are the
viewport element's width and height. -/
def clampViewport (w h : ℚ) (v : Viewport) : Viewport :=
  let maxX := canvasSize - w / v.zoom
  let maxY := canvasSize - h / v.zoom
  { v with x := max 0 (min maxX v.x), y := max 0 (min maxY v.y) }

/-- The screen-to-canvas transform used by every input handler:
`canvasX = viewport_x + screenX / zoom` (e.g. app.js lines 605-606, 935-936). -/
def screenToCanvas (v : Viewport) (s : ℚ × ℚ) : ℚ × ℚ :=
  (v.x + s.1 / v.zoom, v.y + s.2 / v.zoom)

/-- The new zoom computed by `onWheel` (app.js lines 609-610):
`delta = deltaY > 0 ? 0.9 : 1.1`, clamped to `[minZoom, maxZoom]`. -/
def wheelNewZoom (deltaY : ℚ) (v : Viewport) : ℚ :=
  let delta : ℚ := if deltaY > 0 then 9/10 else 11/10
  max minZoom (min maxZoom (v.zoom * delta))

/-- The viewport recomputed by `onWheel` before the final clamp
(app.js lines 604-617): the canvas point under the mouse is computed at the
old zoom and the origin re-solved at the new zoom. -/
def wheelPreClamp (deltaY mouseX mouseY : ℚ) (v : Viewport) : Viewport :=
  let canvasX := v.x + mouseX / v.zoom
  let canvasY := v.y + mouseY / v.zoom
  let newZoom := wheelNewZoom deltaY v
  { x := canvasX - mouseX / newZoom, y := canvasY - mouseY / newZoom, zoom := newZoom }

/-- `onWheel(e)` (app.js lines 598-625): if the clamped zoom actually changes,
recompute the origin about the mouse anchor and clamp; otherwise no state
change. -/
def onWheel (w h deltaY mouseX mouseY : ℚ) (v : Viewport) : Viewport :=
  if wheelNewZoom deltaY v ≠ v.zoom then
    clampViewport w h (wheelPreClamp deltaY mouseX mouseY v)
  else v

/-- `doPan(x, y)` (app.js lines 581-590), expressed on the accumulated screen
deltas: `viewport -= (dx, dy)/zoom`, then clamp. -/
def doPan (w h dx dy : ℚ) (v : Viewport) : Viewport :=
  clampViewport w h { v with x := v.x - dx / v.zoom, y := v.y - dy / v.zoom }

/-- `zoomIn()` (app.js lines 627-645): zoom about the viewport centre by 1.2,
capped at `maxZoom`, then clamp. -/
def zoomIn (w h : ℚ) (v : Viewport) : Viewport :=
  let centerX := w / 2
  let centerY := h / 2
  let canvasX := v.x + centerX / v.zoom
  let canvasY := v.y + centerY / v.zoom
  let z := min maxZoom (v.zoom * (6/5))
  clampViewport w h { x := canvasX - centerX / z, y := canvasY - centerY / z, zoom := z }

/-- `zoomOut()` (app.js lines 647-665): zoom about the viewport centre by 1/1.2,
floored at `minZoom`, then clamp. -/
def zoomOut (w h : ℚ) (v : Viewport) : Viewport :=
  let centerX := w / 2
  let centerY := h / 2
  let canvasX := v.x + centerX / v.zoom
  let canvasY := v.y + centerY / v.zoom
  let z := max minZoom (v.zoom / (6/5))
  clampViewport w h { x := canvasX - centerX / z, y := canvasY - centerY / z, zoom := z }

/-- `resetView()` (app.js lines 667-675): centre on the canvas midpoint at
zoom 1, using `window.innerWidth` / `window.innerHeight - 50`; note the code
does NOT call `clampViewport` here. `winW`, `winH` are the window dimensions. -/
def resetView (winW winH : ℚ) (_v : Viewport) : Viewport :=
  { x := canvasSize / 2 - winW / 2, y := canvasSize / 2 - (winH - 50) / 2, zoom := 1 }

/-- `onMinimapClick(e)` (app.js lines 712-731): recentre the viewport on the
clicked canvas point and clamp.  `mw`, `mh` are the minimap dimensions and
`mx`, `my` the click position inside the minimap. -/
def onMinimapClick (w h mw mh mx my : ℚ) (v : Viewport) : Viewport :=
  let scaleX := canvasSize / mw
  let scaleY := canvasSize / mh
  let vpHalfWidth := (w / v.zoom) / 2
  let vpHalfHeight := (h / v.zoom) / 2
  clampViewport w h
    { v with x := mx * scaleX - vpHalfWidth, y := my * scaleY - vpHalfHeight }

/-- The pinch-zoom branch of `onTouchMove(e)` (app.js lines 753-760): the zoom
is set to the clamped `pinchZoomStart * scale`, but the origin is left
unchanged and `clampViewport` is NOT called. -/
def pinchMove (pinchZoomStart scale : ℚ) (v : Viewport) : Viewport :=
  { v with zoom := max minZoom (min maxZoom (pinchZoomStart * scale)) }

/-- One frame of the movement part of `navigationLoop()` (app.js lines
897-915): per held direction, move by `speed` with the inline
`Math.max`/`Math.min` bounds against `window.innerWidth`/`window.innerHeight`
(`winW`, `winH`). -/
def navMove (winW winH : ℚ) (keys : List String) (shift : Bool) (v : Viewport) :
    Viewport :=
  let speed : ℚ := if shift then 25 else 8
  let v := if "up" ∈ keys then { v with y := max 0 (v.y - speed) } else v
  let v := if "down" ∈ keys then
      { v with y := min (canvasSize - winH / v.zoom) (v.y + speed) } else v
  let v := if "left" ∈ keys then { v with x := max 0 (v.x - speed) } else v
  let v := if "right" ∈ keys then
      { v with x := min (canvasSize - winW / v.zoom) (v.x + speed) } else v
  v

/-- The movement part of one `joystickNavigationLoop()` frame (app.js lines
455-466): outside the 0.1 dead zone, move by `direction * 12` and clamp;
inside it, the viewport is untouched. -/
def joyMove (w h dx dy : ℚ) (v : Viewport) : Viewport :=
  if 1/10 < |dx| ∨ 1/10 < |dy| then
    clampViewport w h { v with x := v.x + dx * 12, y := v.y + dy * 12 }
  else v

/-- The origin-bounds invariant claimed by the specification:
`0 ≤ origin ≤ canvasExtent − visibleExtent/zoom` on both axes, with the origin
pinned to 0 when the visible extent exceeds the canvas at the current zoom
(the `max 0` upper bound collapses to 0 exactly in that case). -/
def originInBounds (w h : ℚ) (v : Viewport) : Prop :=
  0 ≤ v.x ∧ v.x ≤ max 0 (canvasSize - w / v.zoom) ∧
  0 ≤ v.y ∧ v.y ≤ max 0 (canvasSize - h / v.zoom)

instance (w h : ℚ) (v : Viewport) : Decidable (originInBounds w h v) := by
  unfold originInBounds; infer_instance

/-- One-axis clamp fixed-point helper: a value already in the clamp range is
unchanged by `max 0 (min m ·)`. -/
theorem clampAxis_of_bounds (m a : ℚ) (h0 : 0 ≤ a) (h1 : a ≤ max 0 m) :
    max 0 (min m a) = a := by
  rcases le_total a m with hle | hle
  · rw [min_eq_right hle, max_eq_right h0]
  · rw [min_eq_left hle]
    rcases le_total m 0 with hm | hm
    · have ha : a = 0 := le_antisymm (by rwa [max_eq_left hm] at h1) h0
      rw [max_eq_left hm, ha]
    · have ha : a = m := le_antisymm (by rwa [max_eq_right hm] at h1) hle
      rw [max_eq_right hm, ha]

/-- The clamp always produces an in-bounds origin (and leaves the zoom
unchanged). -/
theorem clampViewport_inBounds (w h : ℚ) (v : Viewport) :
    originInBounds w h (clampViewport w h v) := by
  unfold originInBounds clampViewport
  exact ⟨le_max_left _ _, max_le_max (le_refl 0) (min_le_left _ _),
    le_max_left _ _, max_le_max (le_refl 0) (min_le_left _ _)⟩

/-- An in-bounds origin is a fixed point of the clamp. -/
theorem clampViewport_of_inBounds (w h : ℚ) (v : Viewport)
    (hv : originInBounds w h v) : clampViewport w h v = v := by
  obtain ⟨hx0, hx1, hy0, hy1⟩ := hv
  unfold clampViewport
  cases v
  simp_all [clampAxis_of_bounds]

/-- Idempotency of the clamp, as a shared helper. -/
theorem clampViewport_clampViewport (w h : ℚ) (v : Viewport) :
    clampViewport w h (clampViewport w h v) = clampViewport w h v :=
  clampViewport_of_inBounds w h _ (clampViewport_inBounds w h v)

/-- A single viewport operation of the interaction engine, tagged with the
parameters the corresponding handler reads from the event. -/
inductive ViewOp where
  | pan (dx dy : ℚ)
  | wheel (deltaY mouseX mouseY : ℚ)
  | zoomInBtn
  | zoomOutBtn
  | minimapClick (mw mh mx my : ℚ)
  | joystickFrame (dx dy : ℚ)
  | navFrame (keys : List String) (shift : Bool) (winW winH : ℚ)
  | pinch (pinchZoomStart scale : ℚ)
  | resetViewBtn (winW winH : ℚ)
deriving DecidableEq

/-- Dispatch of a viewport operation to its handler (src/js/app.js). -/
def applyOp (w h : ℚ) : ViewOp → Viewport → Viewport
  | .pan dx dy => doPan w h dx dy
  | .wheel deltaY mx my => onWheel w h deltaY mx my
  | .zoomInBtn => zoomIn w h
  | .zoomOutBtn => zoomOut w h
  | .minimapClick mw mh mx my => onMinimapClick w h mw mh mx my
  | .joystickFrame dx dy => joyMove w h dx dy
  | .navFrame keys shift winW winH => navMove winW winH keys shift
  | .pinch s sc => pinchMove s sc
  | .resetViewBtn winW winH => resetView winW winH

/-- The operations whose handler ends in `clampViewport` (pan, wheel zoom,
zoom buttons, minimap click, joystick frame).  Pinch zoom, `resetView` and
keyboard navigation frames do not call `clampViewport`. -/
def ClampingOp : ViewOp → Prop
  | .pan _ _ => True
  | .wheel _ _ _ => True
  | .zoomInBtn => True
  | .zoomOutBtn => True
  | .minimapClick _ _ _ _ => True
  | .joystickFrame _ _ => True
  | _ => False

/-- Each clamping operation preserves (re-establishes) the origin bounds. -/
theorem applyOp_preserves_inBounds (w h : ℚ) (op : ViewOp) (v : Viewport)
    (hop : ClampingOp op) (hv : originInBounds w h v) :
    originInBounds w h (applyOp w h op v) := by
  cases op with
  | pan dx dy => exact clampViewport_inBounds w h _
  | wheel deltaY mx my =>
    simp only [applyOp, onWheel]
    split
    · exact clampViewport_inBounds w h _
    · exact hv
  | zoomInBtn => exact clampViewport_inBounds w h _
  | zoomOutBtn => exact clampViewport_inBounds w h _
  | minimapClick mw mh mx my => exact clampViewport_inBounds w h _
  | joystickFrame dx dy =>
    simp only [applyOp, joyMove]
    split
    · exact clampViewport_inBounds w h _
    · exact hv
  | navFrame keys shift winW winH => exact absurd hop (by simp [ClampingOp])
  | pinch s sc => exact absurd hop (by simp [ClampingOp])
  | resetViewBtn winW winH => exact absurd hop (by simp [ClampingOp])

/-- Claim C2 (amended): after any sequence of viewport operations drawn from
the handlers that end in `clampViewport` (pans, wheel zooms, button zooms,
minimap clicks, joystick frames), starting from an origin satisfying
`0 ≤ origin ≤ canvasExtent − visibleExtent/zoom` (pinned to 0 when the visible
extent exceeds the canvas), the origin still satisfies those bounds.  Pinch
zoom, `resetView` and keyboard-navigation frames bypass `clampViewport` and
are excluded: pinch zoom can violate the bounds (see the counterexample). -/
theorem viewport_origin_inBounds_of_clamping_ops (w h : ℚ) (ops : List ViewOp)
    (v : Viewport) (hops : ∀ op ∈ ops, ClampingOp op)
    (hv : originInBounds w h v) :
    originInBounds w h (ops.foldl (fun s op => applyOp w h op s) v) := by
  induction ops generalizing v with
  | nil => exact hv
  | cons op rest ih =>
    exact ih _ (fun o ho => hops o (List.mem_cons_of_mem _ ho))
      (applyOp_preserves_inBounds w h op v (hops op (List.mem_cons_self _ _)) hv)

/-- Witness for C2's amended theorem: a concrete pan followed by a wheel zoom
from the top-left corner keeps the origin in bounds. -/
theorem viewport_origin_inBounds_witness :
    originInBounds 1000 800
      (([ViewOp.pan 100 100, ViewOp.wheel 1 50 50]).foldl
        (fun s op => applyOp 1000 800 op s) ⟨0, 0, 1⟩) := by
  refine viewport_origin_inBounds_of_clamping_ops 1000 800 _ _ ?_ ?_
  · intro op hop
    fin_cases hop <;> trivial
  · norm_num [originInBounds, canvasSize]

/-- Counterexample to claim C2 as stated: a pan to the far edge (which clamps,
leaving origin x = 4000 at zoom 1) followed by a pinch zoom-out to zoom 1/2
(the pinch branch of `onTouchMove` rescales the zoom without re-clamping)
leaves origin x = 4000 > 5000 − 1000/(1/2) = 3000, violating the bounds. -/
theorem viewport_origin_counterexample :
    ¬ originInBounds 1000 800
        (pinchMove 1 (1/2) (doPan 1000 800 (-4000) 0 ⟨0, 0, 1⟩)) := by
  norm_num [originInBounds, pinchMove, doPan, clampViewport, canvasSize,
    minZoom, maxZoom]

/-- Claim C1 (amended): wheel zoom-about-a-point round-trip invariance.  For a
zoom in `[minZoom, maxZoom]`, if the origin recomputed by `onWheel` is already
within the clamp bounds (so the final `clampViewport` leaves it unchanged),
then the screen-to-canvas transform maps the anchor pixel to exactly the same
canvas point after the zoom change as before it.  When the clamp does move the
recomputed origin the invariance can fail (see the counterexample). -/
theorem wheel_roundtrip_of_clamp_fixed (w h deltaY mouseX mouseY : ℚ)
    (v : Viewport) (_hz : minZoom ≤ v.zoom ∧ v.zoom ≤ maxZoom)
    (hclamp : clampViewport w h (wheelPreClamp deltaY mouseX mouseY v) =
      wheelPreClamp deltaY mouseX mouseY v) :
    screenToCanvas (onWheel w h deltaY mouseX mouseY v) (mouseX, mouseY) =
      screenToCanvas v (mouseX, mouseY) := by
  unfold onWheel
  by_cases hne : wheelNewZoom deltaY v ≠ v.zoom
  · rw [if_pos hne, hclamp]
    unfold wheelPreClamp screenToCanvas
    simp only [Prod.mk.injEq]
    constructor <;> ring
  · rw [if_neg hne]

/-- Witness for C1's amended theorem: zooming out once from the canvas middle
keeps the anchor's canvas point fixed. -/
theorem wheel_roundtrip_witness :
    screenToCanvas (onWheel 1000 1000 1 100 100 ⟨2000, 2000, 1⟩) (100, 100) =
      screenToCanvas ⟨2000, 2000, 1⟩ (100, 100) :=
  wheel_roundtrip_of_clamp_fixed 1000 1000 1 100 100 ⟨2000, 2000, 1⟩
    (by constructor <;> norm_num [minZoom, maxZoom])
    (by norm_num [clampViewport, wheelPreClamp, wheelNewZoom, canvasSize,
      minZoom, maxZoom])

/-- Counterexample to claim C1 as stated ("including after the subsequent
clamp of the origin"): at zoom 1 (inside `[0.25, 2]`) with the origin at the
canvas corner, a wheel zoom-out about screen point (100, 0) recomputes the
origin to −100/9, which the clamp moves to 0; the anchor pixel afterwards
denotes canvas x = 1000/9 ≈ 111.1 instead of the original 100 — an error of
over 11 canvas units, far beyond floating-point tolerance. -/
theorem wheel_roundtrip_counterexample :
    (minZoom ≤ (1 : ℚ) ∧ (1 : ℚ) ≤ maxZoom) ∧
    screenToCanvas (onWheel 1000 800 1 100 0 ⟨0, 0, 1⟩) (100, 0) ≠
      screenToCanvas ⟨0, 0, 1⟩ (100, 0) := by
  refine ⟨by norm_num [minZoom, maxZoom], ?_⟩
  norm_num [screenToCanvas, onWheel, clampViewport, wheelPreClamp,
    wheelNewZoom, canvasSize, minZoom, maxZoom, Prod.ext_iff]

/-- Claim C6 (confirmed): `clampViewport` is idempotent — applying it twice
yields the same origin as applying it once, for every viewport state and
every viewport dimension. -/
theorem clampViewport_idempotent (w h : ℚ) (v : Viewport) :
    clampViewport w h (clampViewport w h v) = clampViewport w h v :=
  clampViewport_clampViewport w h v

/-! ## Backend server (src/backend/server.js) -/

namespace Server

/-- The in-memory `sessions` Map: token ↦ expiry timestamp (milliseconds). -/
abbrev Sessions := List (String × ℤ)

/-- Lookup in the sessions map (`sessions.get` / `sessions.has`). -/
def sessionsGet : Sessions → String → Option ℤ
  | [], _ => none
  | (k, e) :: rest, t => if t = k then some e else sessionsGet rest t

/-- `sessions.set(token, value)`: replace the binding if present, else add. -/
def sessionsSet (s : Sessions) (t : String) (v : ℤ) : Sessions :=
  if (sessionsGet s t).isSome then
    s.map (fun p => if p.1 = t then (t, v) else p)
  else s ++ [(t, v)]

/-- The JSON body of an unauthorized response:
`res.status(401).json({ error: 'Unauthorized', needsAuth: true })`. -/
structure ErrorResponse where
  status : Nat
  needsAuth : Bool
deriving DecidableEq, Repr

/-- `requireAuth` middleware (server.js lines 26-34): reject when the token is
missing (falsy) or not in the sessions map; otherwise refresh the session
expiry to `now + 24h` and pass the request through with the updated map. -/
def requireAuth (sessions : Sessions) (token : Option String) (now : ℤ) :
    Except ErrorResponse Sessions :=
  match token with
  | none => .error ⟨401, true⟩
  | some t =>
    if t = "" then .error ⟨401, true⟩
    else if (sessionsGet sessions t).isSome then
      .ok (sessionsSet sessions t (now + 24 * 60 * 60 * 1000))
    else .error ⟨401, true⟩

/-- The hourly sweep (server.js lines 37-42): delete every session whose
expiry is strictly in the past. -/
def sweepSessions (s : Sessions) (now : ℤ) : Sessions :=
  s.filter (fun p => !(decide (p.2 < now)))

/-- After the sweep, a token all of whose bindings are expired has no
binding left. -/
theorem sessionsGet_sweep_eq_none (s : Sessions) (t : String) (now : ℤ)
    (h : ∀ e, (t, e) ∈ s → e < now) :
    sessionsGet (sweepSessions s now) t = none := by
  induction s with
  | nil => rfl
  | cons p rest ih =>
    obtain ⟨k, e⟩ := p
    have hrest : sessionsGet (sweepSessions rest now) t = none :=
      ih (fun e' he' => h e' (List.mem_cons_of_mem _ he'))
    by_cases hk : t = k
    · subst hk
      have he : e < now := h e (List.mem_cons_self _ _)
      simpa [sweepSessions, List.filter, he] using hrest
    · by_cases hexp : e < now
      · simpa [sweepSessions, List.filter, hexp] using hrest
      · simp only [sweepSessions, List.filter, decide_eq_true_eq] at hrest ⊢
        simp [hexp, sessionsGet, hk, hrest]

/-- Claim C3 (amended): a request with a missing token, or a token that has no
binding in the session store, is rejected with a 401 response carrying
`needsAuth: true`; and a token whose stored expiry is past is rejected once
the periodic sweep has removed it.  At request time, however, `requireAuth`
only tests membership — an expired binding that the sweep has not yet removed
is accepted (see the counterexample). -/
theorem requireAuth_unauthorized (sessions : Sessions) (t : String) (now : ℤ) :
    requireAuth sessions none now = .error ⟨401, true⟩ ∧
    (sessionsGet sessions t = none →
      requireAuth sessions (some t) now = .error ⟨401, true⟩) ∧
    ((∀ e, (t, e) ∈ sessions → e < now) →
      requireAuth (sweepSessions sessions now) (some t) now =
        .error ⟨401, true⟩) := by
  refine ⟨rfl, ?_, ?_⟩
  · intro hnone
    simp [requireAuth, hnone]
  · intro hall
    simp [requireAuth, sessionsGet_sweep_eq_none sessions t now hall]

/-- Witness for C3's amended theorem: the sole session of `"t"` expired at
time 100; after the sweep at time 200 a request presenting `"t"` gets 401
with `needsAuth`. -/
theorem requireAuth_unauthorized_witness :
    requireAuth (sweepSessions [("t", 100)] 200) (some "t") 200 =
      .error ⟨401, true⟩ :=
  (requireAuth_unauthorized [("t", 100)] "t" 200).2.2 (by
    intro e he
    simp only [List.mem_singleton, Prod.mk.injEq] at he
    omega)

/-- Counterexample to claim C3 as stated: the stored expiry of token `"t"` is
100, the request arrives at time 200 (the expiry is past), yet `requireAuth`
accepts the request and even refreshes the session to expire at 86400200 —
an expired-but-unswept token is not rejected at request time. -/
theorem requireAuth_counterexample :
    ((100 : ℤ) < 200) ∧
    requireAuth [("t", 100)] (some "t") 200 = .ok [("t", 86400200)] := by
  exact ⟨by norm_num, by rfl⟩

/-- An item's `style` as the client holds it: a free-form attribute bag.  The
server stores `JSON.stringify(style)` in a TEXT column and `JSON.parse`s it
back on read; since stringify/parse round-trips on JSON values, the embedding
identifies the stored text with the bag itself. -/
abbrev StyleBag := List (String × String)

/-- A row of the `items` table (server.js lines 66-80). -/
structure ItemRow where
  id : String
  board_id : String
  type : String
  x : ℚ
  y : ℚ
  width : Option ℚ
  height : Option ℚ
  content : String
  style : StyleBag
  z_index : ℤ
  created_at : ℤ
  updated_at : ℤ
deriving DecidableEq, Repr

/-- A row of the `todos` table (server.js lines 82-91); `completed` is an
INTEGER flag. -/
structure TodoRow where
  id : String
  board_id : String
  text : String
  completed : ℤ
  priority : String
  created_at : ℤ
  updated_at : ℤ
deriving DecidableEq, Repr

/-- JavaScript `a || b` for a possibly-absent number: `undefined`, `null`
and `0` are falsy. -/
def jsOrInt (a : Option ℤ) (b : ℤ) : ℤ :=
  match a with
  | some n => if n = 0 then b else n
  | none => b

/-- JavaScript `a || b` for a possibly-absent string: `undefined`, `null`
and `""` are falsy. -/
def jsOrStr (a : Option String) (b : String) : String :=
  match a with
  | some s => if s = "" then b else s
  | none => b

/-- An item as it appears in the `POST /api/sync` request payload; optional
fields may be absent from the JSON. -/
structure SyncItem where
  id : String
  type : String
  x : ℚ
  y : ℚ
  width : Option ℚ
  height : Option ℚ
  content : String
  style : Option StyleBag
  z_index : Option ℤ
  created_at : Option ℤ
  updated_at : Option ℤ
deriving DecidableEq, Repr

/-- A todo as it appears in the `POST /api/sync` request payload. -/
structure SyncTodo where
  id : String
  text : String
  completed : Bool
  priority : Option String
  created_at : Option ℤ
deriving DecidableEq, Repr

/-- The row inserted for one item by the sync transaction (server.js lines
328-335): `style` defaults to the empty bag, `z_index` to 0, `created_at`
falls back to the sync time, and `updated_at` is always the sync time. -/
def syncInsertItem (boardId : String) (now : ℤ) (i : SyncItem) : ItemRow :=
  { id := i.id, board_id := boardId, type := i.type, x := i.x, y := i.y,
    width := i.width, height := i.height, content := i.content,
    style := i.style.getD [],
    z_index := jsOrInt i.z_index 0,
    created_at := jsOrInt i.created_at now,
    updated_at := now }

/-- The row inserted for one todo by the sync transaction (server.js lines
343-348). -/
def syncInsertTodo (boardId : String) (now : ℤ) (t : SyncTodo) : TodoRow :=
  { id := t.id, board_id := boardId, text := t.text,
    completed := if t.completed then 1 else 0,
    priority := jsOrStr t.priority "medium",
    created_at := jsOrInt t.created_at now,
    updated_at := now }

/-- The server-side persistent store: the `items` and `todos` tables. -/
structure Store where
  items : List ItemRow
  todos : List TodoRow
deriving DecidableEq, Repr

/-- `POST /api/sync` (server.js lines 310-357): destructive replace — delete
all rows of the board, then insert the payload's items and todos. -/
def postSync (store : Store) (boardId : String) (items : List SyncItem)
    (todos : List SyncTodo) (now : ℤ) : Store :=
  { items := store.items.filter (fun r => r.board_id != boardId) ++
      items.map (syncInsertItem boardId now),
    todos := store.todos.filter (fun r => r.board_id != boardId) ++
      todos.map (syncInsertTodo boardId now) }

/-- A todo as returned by `GET /api/board/:id`: `completed` surfaced as a
boolean (`!!t.completed`). -/
structure GetTodo where
  id : String
  board_id : String
  text : String
  completed : Bool
  priority : String
  created_at : ℤ
  updated_at : ℤ
deriving DecidableEq, Repr

/-- The items part of `GET /api/board/:id` (server.js line 157):
`SELECT * FROM items WHERE board_id = ? ORDER BY z_index`. -/
def getBoardItems (store : Store) (boardId : String) : List ItemRow :=
  (store.items.filter (fun r => r.board_id == boardId)).mergeSort
    (fun a b => decide (a.z_index ≤ b.z_index))

/-- The todos part of `GET /api/board/:id` (server.js lines 158, 174):
`ORDER BY created_at DESC`, with `completed` coerced to a boolean. -/
def getBoardTodos (store : Store) (boardId : String) : List GetTodo :=
  ((store.todos.filter (fun r => r.board_id == boardId)).mergeSort
      (fun a b => decide (b.created_at ≤ a.created_at))).map
    (fun t =>
      { id := t.id, board_id := t.board_id, text := t.text,
        completed := t.completed != (0 : ℤ), priority := t.priority,
        created_at := t.created_at, updated_at := t.updated_at })

/-- Claim C4 (amended): a full sync round-trip (`POST /sync` then
`GET /board/:id`) returns, for every item sent, an item with the same id,
type, position, dimensions, content, style (defaulted to the empty bag when
absent) and z_index (defaulted to 0 when absent); `created_at` is preserved
when sent and non-zero, otherwise set to the sync time; `updated_at` is
always replaced by the sync time, not the sent value (see the
counterexample).  For every todo sent, the text and priority come back
unchanged and `completed` is correctly coerced to a boolean. -/
theorem sync_roundtrip (store : Store) (boardId : String)
    (items : List SyncItem) (todos : List SyncTodo) (now : ℤ) :
    (∀ si ∈ items,
      ∃ r ∈ getBoardItems (postSync store boardId items todos now) boardId,
        r.id = si.id ∧ r.type = si.type ∧ r.x = si.x ∧ r.y = si.y ∧
        r.width = si.width ∧ r.height = si.height ∧ r.content = si.content ∧
        r.style = si.style.getD [] ∧ r.z_index = jsOrInt si.z_index 0 ∧
        r.created_at = jsOrInt si.created_at now ∧ r.updated_at = now) ∧
    (∀ st ∈ todos,
      ∃ r ∈ getBoardTodos (postSync store boardId items todos now) boardId,
        r.id = st.id ∧ r.text = st.text ∧ r.completed = st.completed ∧
        r.priority = jsOrStr st.priority "medium" ∧
        r.created_at = jsOrInt st.created_at now ∧ r.updated_at = now) := by
  constructor
  · intro si hsi
    refine ⟨syncInsertItem boardId now si, ?_, by simp [syncInsertItem]⟩
    rw [getBoardItems, List.mem_mergeSort, List.mem_filter]
    constructor
    · exact List.mem_append_right _ (List.mem_map_of_mem _ hsi)
    · simp [syncInsertItem]
  · intro st hst
    rw [getBoardTodos]
    have hmem : syncInsertTodo boardId now st ∈
        ((postSync store boardId items todos now).todos.filter
            (fun r => r.board_id == boardId)).mergeSort
          (fun a b => decide (b.created_at ≤ a.created_at)) := by
      rw [List.mem_mergeSort, List.mem_filter]
      exact ⟨List.mem_append_right _ (List.mem_map_of_mem _ hst),
        by simp [syncInsertTodo]⟩
    refine ⟨_, List.mem_map_of_mem _ hmem, ?_⟩
    cases hc : st.completed <;> simp [syncInsertTodo, hc]

/-- Witness for C4's amended theorem: a concrete one-item, one-todo payload
synced into an empty store at time 10 comes back with all preserved fields
intact. -/
theorem sync_roundtrip_witness :
    ∃ r ∈ getBoardItems
        (postSync ⟨[], []⟩ "default"
          [{ id := "i1", type := "text", x := 100, y := 100, width := none,
             height := none, content := "Goal", style := some [],
             z_index := some 1, created_at := some 3, updated_at := some 5 }]
          [] 10) "default",
      r.id = "i1" ∧ r.type = "text" ∧ r.x = 100 ∧ r.y = 100 ∧
      r.width = none ∧ r.height = none ∧ r.content = "Goal" ∧
      r.style = (some ([] : StyleBag)).getD [] ∧
      r.z_index = jsOrInt (some 1) 0 ∧
      r.created_at = jsOrInt (some 3) 10 ∧ r.updated_at = 10 := by
  have h := (sync_roundtrip ⟨[], []⟩ "default"
    [{ id := "i1", type := "text", x := 100, y := 100, width := none,
       height := none, content := "Goal", style := some [],
       z_index := some 1, created_at := some 3, updated_at := some 5 }]
    [] 10).1
  simpa using h _ (List.mem_singleton.mpr rfl)

/-- Counterexample to claim C4 as stated: the sent item carries
`updated_at = 5`, but after `POST /sync` at time 10 the item returned by
`GET /board/:id` has `updated_at = 10` — the timestamps are not returned
field-for-field. -/
theorem sync_roundtrip_counterexample :
    (getBoardItems
        (postSync ⟨[], []⟩ "default"
          [{ id := "i1", type := "text", x := 1, y := 2, width := none,
             height := none, content := "Goal", style := some [],
             z_index := some 1, created_at := some 3, updated_at := some 5 }]
          [] 10) "default").map (fun r => r.updated_at) = [10] ∧
    (10 : ℤ) ≠ 5 := by
  constructor
  · simp [getBoardItems, postSync, syncInsertItem]
  · norm_num

/-- The JSON body of `PUT /api/items/:id`: each field is present or absent. -/
structure ItemUpdate where
  x : Option ℚ
  y : Option ℚ
  width : Option ℚ
  height : Option ℚ
  content : Option String
  style : Option StyleBag
  z_index : Option ℤ
deriving DecidableEq, Repr

/-- The effect of the dynamically-built `UPDATE items SET ...` statement on
one row (server.js lines 219-236): only supplied fields change, and
`updated_at` is always refreshed. -/
def putItemBody (u : ItemUpdate) (now : ℤ) (r : ItemRow) : ItemRow :=
  { r with
    x := u.x.getD r.x,
    y := u.y.getD r.y,
    width := match u.width with | some v => some v | none => r.width,
    height := match u.height with | some v => some v | none => r.height,
    content := u.content.getD r.content,
    style := u.style.getD r.style,
    z_index := u.z_index.getD r.z_index,
    updated_at := now }

/-- `PUT /api/items/:id` (server.js lines 217-241): apply the partial update
to every row whose id matches (ids are the primary key). -/
def putItem (store : Store) (id : String) (u : ItemUpdate) (now : ℤ) :
    Store :=
  { store with
    items := store.items.map
      (fun r => if r.id = id then putItemBody u now r else r) }

/-- Claim C5 (confirmed): `PUT /items/:id` with a body supplying only `x`
changes exactly the matching item's `x` and `updated_at`; `y`, `width`,
`height`, `content`, `style` and `z_index` keep their stored values, and
every other row of the store is untouched. -/
theorem putItem_x_only (store : Store) (id : String) (xv : ℚ) (now : ℤ) :
    putItem store id
        { x := some xv, y := none, width := none, height := none,
          content := none, style := none, z_index := none } now =
      { store with
        items := store.items.map
          (fun r => if r.id = id then { r with x := xv, updated_at := now }
            else r) } := by
  rfl

end Server

/-! ## Client item model (src/js/app.js) -/

namespace Client

/-- `textEditorState` (app.js lines 120-126, 1003). -/
structure TextStyle where
  fontSize : ℚ
  color : String
  bold : Bool
  italic : Bool
  glow : Bool
deriving DecidableEq, Repr

/-- An item's `style`: the text attribute record for text items, or the empty
bag `{}` used for image items. -/
inductive ItemStyle where
  | text (s : TextStyle)
  | empty
deriving DecidableEq, Repr

/-- An in-memory item of the client (`this.items` entries). -/
structure Item where
  id : String
  type : String
  x : ℚ
  y : ℚ
  width : Option ℚ
  height : Option ℚ
  content : String
  style : ItemStyle
  z_index : ℤ
deriving DecidableEq, Repr

/-- The slice of `VisionboardApp` state that the item model reads and
writes. -/
structure AppState where
  items : List Item
  selectedItem : Option String
  editingItemId : Option String
  pendingTextPosition : Option (ℚ × ℚ)
  pendingImagePosition : Option (ℚ × ℚ)
  textEditorOpen : Bool
  textEditorState : TextStyle
deriving DecidableEq, Repr

/-- JavaScript `a || b` for a possibly-absent coordinate
(`this.pendingTextPosition?.x || this.canvasSize / 2`): `undefined`, `null`
and `0` are falsy. -/
def jsOrQ (a : Option ℚ) (b : ℚ) : ℚ :=
  match a with
  | some q => if q = 0 then b else q
  | none => b

/-- JavaScript `String.prototype.trim()`, modelled on the character list:
strip leading and trailing whitespace. -/
def jsTrim (s : String) : String :=
  ⟨((s.data.dropWhile Char.isWhitespace).reverse.dropWhile
      Char.isWhitespace).reverse⟩

/-- `closeTextEditor()` (app.js lines 1033-1037): hide the modal and clear
the editing id and pending position. -/
def closeTextEditor (st : AppState) : AppState :=
  { st with textEditorOpen := false, editingItemId := none,
            pendingTextPosition := none }

/-- `items.find(...)` followed by in-place mutation: apply `f` to the first
item whose id is `eid`, leave everything else untouched. -/
def updateFirst (items : List Item) (eid : String) (f : Item → Item) :
    List Item :=
  match items with
  | [] => []
  | i :: rest =>
    if i.id = eid then f i :: rest else i :: updateFirst rest eid f

/-- `saveTextItem()` (app.js lines 1039-1071).  `input` is the modal text
field's value and `newId` the id `generateId()` would mint.  `editingItemId`
is always a non-empty `generateId()` value when set, so the JS truthiness
test `if (this.editingItemId)` is the `Option` match. -/
def saveTextItem (st : AppState) (input : String) (newId : String) :
    AppState :=
  let text := jsTrim input
  if text = "" then closeTextEditor st
  else
    let st' :=
      match st.editingItemId with
      | some eid =>
        { st with items := updateFirst st.items eid (fun i =>
            { i with content := text, style := .text st.textEditorState }) }
      | none =>
        { st with items := st.items ++
            [{ id := newId, type := "text",
               x := jsOrQ (st.pendingTextPosition.map Prod.fst) (canvasSize / 2),
               y := jsOrQ (st.pendingTextPosition.map Prod.snd) (canvasSize / 2),
               width := none, height := none, content := text,
               style := .text st.textEditorState,
               z_index := st.items.length }] }
    closeTextEditor st'

/-- Claim C8 (confirmed): saving from the text editor with empty trimmed
text is a no-op cancel — the item list and the selection are unchanged and
the editor is closed. -/
theorem saveTextItem_empty_cancels (st : AppState) (input newId : String)
    (h : jsTrim input = "") :
    (saveTextItem st input newId).items = st.items ∧
    (saveTextItem st input newId).selectedItem = st.selectedItem ∧
    (saveTextItem st input newId).textEditorOpen = false := by
  simp [saveTextItem, h, closeTextEditor]

/-- Witness for C8: saving whitespace-only text from a one-item state leaves
the item list and selection alone and closes the editor. -/
theorem saveTextItem_empty_witness :
    (saveTextItem
        ⟨[⟨"a", "text", 1, 2, none, none, "hi", .empty, 0⟩], some "a", none,
         none, none, true, ⟨24, "#ffffff", false, false, false⟩⟩
        "   " "n").items =
      [⟨"a", "text", 1, 2, none, none, "hi", .empty, 0⟩] := by
  exact (saveTextItem_empty_cancels _ "   " "n" (by decide)).1

/-- The dimension normalization in `addImageItem` (app.js lines 1102-1111):
if either source dimension exceeds 400, scale both by
`min(400/width, 400/height)`. -/
def normalizeImageSize (w h : ℚ) : ℚ × ℚ :=
  if 400 < w ∨ 400 < h then
    let r := min (400 / w) (400 / h)
    (w * r, h * r)
  else (w, h)

/-- `addImageItem(dataUrl, x, y)` (app.js lines 1099-1131): normalize the
image dimensions once, push the new item (`z_index` = current item count)
and clear the pending image position.  `imgW`, `imgH` are the loaded image's
source dimensions; `x?`, `y?` the optional explicit position arguments. -/
def addImageItem (st : AppState) (dataUrl : String) (imgW imgH : ℚ)
    (x? y? : Option ℚ) (newId : String) : AppState :=
  let wh := normalizeImageSize imgW imgH
  { st with
    items := st.items ++
      [{ id := newId, type := "image",
         x := jsOrQ x?
           (jsOrQ (st.pendingImagePosition.map Prod.fst) (canvasSize / 2)),
         y := jsOrQ y?
           (jsOrQ (st.pendingImagePosition.map Prod.snd) (canvasSize / 2)),
         width := some wh.1, height := some wh.2, content := dataUrl,
         style := .empty, z_index := st.items.length }],
    pendingImagePosition := none }

/-- Claim C7 (confirmed): image insertion stores exactly the normalized
dimensions; when either source dimension exceeds 400 both are scaled by
`min(400/w, 400/h)`, the stored dimensions are each at most 400 and the
aspect ratio is preserved (as a cross-product identity); otherwise the
dimensions are stored unchanged.  Normalization happens only here, at
creation. -/
theorem addImageItem_normalizes (st : AppState) (dataUrl : String)
    (imgW imgH : ℚ) (x? y? : Option ℚ) (newId : String)
    (hw : 0 < imgW) (hh : 0 < imgH) :
    (∃ it : Item,
      (addImageItem st dataUrl imgW imgH x? y? newId).items =
        st.items ++ [it] ∧
      it.width = some (normalizeImageSize imgW imgH).1 ∧
      it.height = some (normalizeImageSize imgW imgH).2) ∧
    ((400 < imgW ∨ 400 < imgH) →
      normalizeImageSize imgW imgH =
        (imgW * min (400 / imgW) (400 / imgH),
         imgH * min (400 / imgW) (400 / imgH)) ∧
      (normalizeImageSize imgW imgH).1 ≤ 400 ∧
      (normalizeImageSize imgW imgH).2 ≤ 400 ∧
      (normalizeImageSize imgW imgH).1 * imgH =
        (normalizeImageSize imgW imgH).2 * imgW) ∧
    (¬(400 < imgW ∨ 400 < imgH) →
      normalizeImageSize imgW imgH = (imgW, imgH)) := by
  refine ⟨⟨_, rfl, rfl, rfl⟩, ?_, ?_⟩
  · intro hgt
    have heq : normalizeImageSize imgW imgH =
        (imgW * min (400 / imgW) (400 / imgH),
         imgH * min (400 / imgW) (400 / imgH)) := by
      rw [normalizeImageSize, if_pos hgt]
    refine ⟨heq, ?_, ?_, ?_⟩
    · rw [heq]
      calc imgW * min (400 / imgW) (400 / imgH)
          ≤ imgW * (400 / imgW) :=
            mul_le_mul_of_nonneg_left (min_le_left _ _) hw.le
        _ = 400 := by field_simp
    · rw [heq]
      calc imgH * min (400 / imgW) (400 / imgH)
          ≤ imgH * (400 / imgH) :=
            mul_le_mul_of_nonneg_left (min_le_right _ _) hh.le
        _ = 400 := by field_simp
    · rw [heq]; ring
  · intro hle
    rw [normalizeImageSize, if_neg hle]

/-- Witness for C7: an 800×200 image is stored as 400×100 — both within the
maximum, same aspect ratio. -/
theorem addImageItem_normalizes_witness :
    normalizeImageSize 800 200 =
      ((800 : ℚ) * min (400 / 800) (400 / 200),
       (200 : ℚ) * min (400 / 800) (400 / 200)) ∧
    (normalizeImageSize 800 200).1 ≤ 400 ∧
    (normalizeImageSize 800 200).2 ≤ 400 := by
  have h := ((addImageItem_normalizes
    ⟨[], none, none, none, none, false, ⟨24, "#ffffff", false, false, false⟩⟩
    "d" 800 200 none none "n" (by norm_num) (by norm_num)).2.1
    (by norm_num))
  exact ⟨h.1, h.2.1, h.2.2.1⟩

/-- `deleteItem(id)` (app.js lines 1279-1287): `findIndex`, and when found,
`splice` the item out, clear the selection and re-render; when not found,
nothing changes. -/
def deleteItem (st : AppState) (id : String) : AppState :=
  match st.items.findIdx? (fun i => i.id == id) with
  | some idx =>
    { st with items := st.items.eraseIdx idx, selectedItem := none }
  | none => st

/-- Claim C10 (confirmed): when the id is present in the item list,
`deleteItem` clears the selection unconditionally — whatever was selected
before, including a different item; when the id is absent, the state
(item list and selection) is unchanged. -/
theorem deleteItem_selection (st : AppState) (id : String) :
    ((∃ it ∈ st.items, it.id = id) →
      (deleteItem st id).selectedItem = none) ∧
    ((∀ it ∈ st.items, it.id ≠ id) → deleteItem st id = st) := by
  constructor
  · rintro ⟨it, hit, hid⟩
    rcases hfi : st.items.findIdx? (fun i => i.id == id) with _ | idx
    · rw [List.findIdx?_eq_none_iff] at hfi
      exact absurd (by simpa using hfi it hit) (by simp [hid])
    · simp [deleteItem, hfi]
  · intro hall
    have hfi : st.items.findIdx? (fun i => i.id == id) = none := by
      rw [List.findIdx?_eq_none_iff]
      intro it hit
      simpa using hall it hit
    simp [deleteItem, hfi]

/-- Witness for C10: deleting item `"b"` while `"a"` is selected clears the
selection. -/
theorem deleteItem_selection_witness :
    (deleteItem
        ⟨[⟨"a", "text", 0, 0, none, none, "x", .empty, 0⟩,
          ⟨"b", "text", 1, 1, none, none, "y", .empty, 1⟩], some "a", none,
         none, none, false, ⟨24, "#ffffff", false, false, false⟩⟩
        "b").selectedItem = none :=
  (deleteItem_selection _ "b").1
    ⟨⟨"b", "text", 1, 1, none, none, "y", .empty, 1⟩, by simp, rfl⟩

/-- Keyboard-navigation state: `isNavigating`, the held-key set
`keysPressed`, `isShiftPressed`, and the viewport the loop moves. -/
structure NavState where
  isNavigating : Bool
  keysPressed : List String
  isShiftPressed : Bool
  viewport : Viewport
deriving DecidableEq, Repr

/-- `startNavigation()` (app.js lines 879-883): a no-op while the loop is
already running, otherwise mark it running and kick off the first frame. -/
def startNavigation (s : NavState) : NavState :=
  if s.isNavigating then s else { s with isNavigating := true }

/-- One frame of `navigationLoop()` (app.js lines 891-923): when the loop was
stopped or the held-key set is empty, clear `isNavigating` and do not
schedule another frame; otherwise move the viewport per the held keys and
schedule the next frame.  The boolean reports whether `requestAnimationFrame`
was called again. -/
def navigationFrame (winW winH : ℚ) (s : NavState) : NavState × Bool :=
  if !s.isNavigating || s.keysPressed.isEmpty then
    ({ s with isNavigating := false }, false)
  else
    ({ s with viewport :=
        navMove winW winH s.keysPressed s.isShiftPressed s.viewport }, true)

/-- Joystick state: `joystickNavigating` plus the `joystickState` fields the
loop reads (`active`, normalized direction `currentX`/`currentY`) and the
viewport. -/
structure JoyState where
  joystickNavigating : Bool
  active : Bool
  currentX : ℚ
  currentY : ℚ
  viewport : Viewport
deriving DecidableEq, Repr

/-- `startJoystickNavigation()` (app.js lines 441-445): a no-op while the
joystick loop is already running. -/
def startJoystickNavigation (s : JoyState) : JoyState :=
  if s.joystickNavigating then s else { s with joystickNavigating := true }

/-- `stopJoystickNavigation()` (app.js lines 447-450): clear the running
flag (and trigger the viewport persistence write). -/
def stopJoystickNavigation (s : JoyState) : JoyState :=
  { s with joystickNavigating := false }

/-- `resetJoystick()` (app.js lines 428-439): return the stick to centre
(normalized direction (0,0)), deactivate it and stop the navigation loop. -/
def resetJoystick (s : JoyState) : JoyState :=
  stopJoystickNavigation
    { s with active := false, currentX := 0, currentY := 0 }

/-- One frame of `joystickNavigationLoop()` (app.js lines 452-469): exit
without scheduling another frame when the loop was stopped; otherwise move
the viewport (dead zone handled inside `joyMove`) and schedule the next
frame. -/
def joystickNavigationFrame (w h : ℚ) (s : JoyState) : JoyState × Bool :=
  if !s.joystickNavigating then (s, false)
  else
    ({ s with viewport := joyMove w h s.currentX s.currentY s.viewport },
      true)

/-- Claim C9 (confirmed): at most one instance of each per-frame navigation
loop runs at a time — starting a loop (keyboard or joystick) while the same
loop is already active leaves the state unchanged; a keyboard-loop frame with
an empty held-key set terminates the loop (no further frame is scheduled and
the running flag is cleared); and once the joystick returns to centre (the
`resetJoystick` transition, the only way the stick re-centres), the next
joystick frame terminates the loop. -/
theorem navigation_single_instance (winW winH w h : ℚ) (s : NavState)
    (j : JoyState) :
    (s.isNavigating = true → startNavigation s = s) ∧
    (j.joystickNavigating = true → startJoystickNavigation j = j) ∧
    (s.keysPressed = [] →
      (navigationFrame winW winH s).2 = false ∧
      (navigationFrame winW winH s).1.isNavigating = false) ∧
    (joystickNavigationFrame w h (resetJoystick j)).2 = false ∧
    (joystickNavigationFrame w h (resetJoystick j)).1.joystickNavigating =
      false := by
  refine ⟨?_, ?_, ?_, ?_, ?_⟩
  · intro hs; simp [startNavigation, hs]
  · intro hj; simp [startJoystickNavigation, hj]
  · intro hk; simp [navigationFrame, hk]
  · simp [joystickNavigationFrame, resetJoystick, stopJoystickNavigation]
  · simp [joystickNavigationFrame, resetJoystick, stopJoystickNavigation]

/-- Witness for C9: concrete loop states — re-starting an active keyboard
loop changes nothing, and a frame with no held keys schedules no further
frame. -/
theorem navigation_single_instance_witness :
    startNavigation ⟨true, ["up"], false, ⟨0, 0, 1⟩⟩ =
      ⟨true, ["up"], false, ⟨0, 0, 1⟩⟩ ∧
    (navigationFrame 1000 800 ⟨true, [], false, ⟨0, 0, 1⟩⟩).2 = false :=
  ⟨(navigation_single_instance 1000 800 1000 800
      ⟨true, ["up"], false, ⟨0, 0, 1⟩⟩ ⟨true, true, 0, 0, ⟨0, 0, 1⟩⟩).1 rfl,
   ((navigation_single_instance 1000 800 1000 800
      ⟨true, [], false, ⟨0, 0, 1⟩⟩ ⟨true, true, 0, 0, ⟨0, 0, 1⟩⟩).2.2.1
        rfl).1⟩

end Client

end Visionboard
